import Mathlib

/-!
Shallow embedding of the cosmodal wallet-connection brokers
(`src/components/GetWalletProvider.tsx` and `src/providers/wc-keplr.tsx`)
and of the broadcast helper `sendTxWC` from `src/providers/wc-keplr.tsx`.

Asynchronous code is modelled under the single-threaded cooperative
scheduler: every awaited external result (the injected-extension probe, a
fresh connector's persisted `connected` flag, the pairing URI issued by
`createSession`) is a field of an environment record fixed per run, and
every UI or connector callback is an explicit event acting on an explicit
request configuration.  A `request()` call either settles immediately
(no `window`, cache hit, preference hit) or returns a pending
configuration holding the promise state, the EventChannel subscriptions it
registered, and the pairing-connector state; events then drive it.

`createSession()` issues its pairing URI asynchronously through the
`qrcodeModal.open` hook; here the hook runs at the `createSession` step
(the next scheduler turn is folded in), which preserves the order of all
observable effects.
-/

/-- Opaque wallet handle.  The broker never inspects its shape
(`Promise<any>` in the source), so a numeric identity is enough. -/
abbrev WalletHandle := Nat

/-- Error payload carried by a promise rejection (the connector's connect
error).  The source also calls `reject()` with no argument at all, which
is modelled as a `none` payload. -/
abbrev Err := String

/-- Settlement state of a JS promise.  `resolved`/`rejected` carry the
value passed to `resolve`/`reject`; `resolve(undefined)` is
`resolved none` and `reject()` is `rejected none`. -/
inductive PromiseStatus where
  | unsettled : PromiseStatus
  | resolved : Option WalletHandle → PromiseStatus
  | rejected : Option Err → PromiseStatus
deriving DecidableEq

/-- Calling `resolve` on an already settled promise is a no-op
(Promises/A+ settle-at-most-once semantics). -/
def PromiseStatus.doResolve : PromiseStatus → Option WalletHandle → PromiseStatus
  | .unsettled, w => .resolved w
  | p, _ => p

/-- Calling `reject` on an already settled promise is a no-op. -/
def PromiseStatus.doReject : PromiseStatus → Option Err → PromiseStatus
  | .unsettled, e => .rejected e
  | p, _ => p

def PromiseStatus.isSettled : PromiseStatus → Bool
  | .unsettled => false
  | _ => true

/-- State of a `WalletConnect` connector as the brokers observe it:
whether the (possibly restored) session reports `connected`, whether
`createSession()` has been called on it, and whether a `connect`-event
handler has been attached with `connector.on`. -/
structure WCConnector where
  connected : Bool
  sessionCreated : Bool
  hasConnectHandler : Bool
deriving DecidableEq

/- ------------------------------------------------------------------ -/
/- The Keplr broker: `src/providers/wc-keplr.tsx` (GetKeplrProvider). -/
/- ------------------------------------------------------------------ -/

/-- Connection-method identifiers of the Keplr broker
(`"extension" | "wallet-connect"`). -/
inductive ConnType where
  | extension : ConnType
  | walletConnect : ConnType
deriving DecidableEq

/-- Provider-level mutable state of `GetKeplrProvider`: the two modal
visibility states, the cached handle (`lastUsedKeplrRef`), the stored
preference (`defaultConnectionTypeRef`) and the reflected
`connectionType`.  The pairing prompter is open iff `wcUri` is
non-empty. -/
structure KState where
  isModalOpen : Bool
  wcUri : String
  lastUsedKeplr : Option WalletHandle
  defaultConnectionType : Option ConnType
  connectionType : Option ConnType
deriving DecidableEq

/-- `KeplrWalletConnectQRModal` is mounted with
`isOpen = (wcUri.length > 0)`. -/
def KState.qrOpen (s : KState) : Bool :=
  decide (s.wcUri.length > 0)

/-- Which EventChannel topics of the Keplr broker currently have a
handler registered (the in-flight request registers at most one handler
per topic; `eventemitter3.off(topic)` with no function argument, as used
by `cleanUp`, removes every handler of that topic). -/
structure KSubs where
  modal_close : Bool
  select_extension : Bool
  select_wallet_connect : Bool
  wc_qr_modal_close : Bool
deriving DecidableEq

/-- Configuration of one in-flight `getKeplr()` request: provider state,
registered subscriptions, the promise, whether the `qrcodeModal.open`
hook captured a close-callback (`callbackClosed`, the pairing protocol's
cancel hook), whether that hook has been invoked, and the connector
created by the `select_wallet_connect` handler (if any). -/
structure KConfig where
  st : KState
  subs : KSubs
  promise : PromiseStatus
  callbackClosed : Bool
  cancelInvoked : Bool
  connector : Option WCConnector
deriving DecidableEq

/-- `cleanUp` of `wc-keplr.tsx`: `eventListener.off` on all five topics
("connect" is offed there too, but the connect handler lives on the
connector, not on the EventChannel, so that off is a no-op). -/
def KConfig.cleanUp (c : KConfig) : KConfig :=
  { c with subs := { modal_close := false, select_extension := false,
                     select_wallet_connect := false, wc_qr_modal_close := false } }

/-- External inputs of one run of the Keplr broker: whether a `window`
object exists, what `getKeplrFromWindow()` resolves with (absent when no
extension is injected), whether a freshly constructed connector restores
a session that reports `connected`, the pairing URI that
`createSession()` issues, and the identity of the
`KeplrWalletConnectV1` wrapper handle. -/
structure KEnv where
  hasWindow : Bool
  keplrFromWindow : Option WalletHandle
  freshConnected : Bool
  pairingUri : String
  wcWrapperKeplr : WalletHandle
deriving DecidableEq

/-- Result of calling `getKeplr()`: either the returned promise is
already settled and the provider state updated (no listeners were
registered), or the call suspended with a pending configuration. -/
inductive KStart where
  | immediate : PromiseStatus → KState → KStart
  | pending : KConfig → KStart
deriving DecidableEq

/-- The pending configuration built by the `new Promise` body of
`getKeplr` (lines 137-152 of `wc-keplr.tsx`): the selection modal is
opened and handlers are registered for `modal_close`, `select_extension`
and `select_wallet_connect`; the `wc_qr_modal_close` handler is only
registered later, inside the `select_wallet_connect` handler. -/
def kPendingInit (s : KState) : KConfig :=
  { st := { s with isModalOpen := true },
    subs := { modal_close := true, select_extension := true,
              select_wallet_connect := true, wc_qr_modal_close := false },
    promise := .unsettled,
    callbackClosed := false,
    cancelInvoked := false,
    connector := none }

/-- `getKeplr` (lines 92-219 of `wc-keplr.tsx`), up to its first
suspension point.  Order of checks as in the source: no `window`;
cached handle; `"extension"` preference (the `getKeplrFromWindow()`
probe is awaited and its result cached and returned, even when absent);
`"wallet-connect"` preference, which short-circuits only when the
freshly constructed connector already reports `connected` and otherwise
falls through to the prompted path. -/
def getKeplr (env : KEnv) (s : KState) : KStart :=
  if env.hasWindow = false then
    .immediate (.resolved none) s
  else
    match s.lastUsedKeplr with
    | some k => .immediate (.resolved (some k)) s
    | none =>
      if s.defaultConnectionType = some ConnType.extension then
        .immediate (.resolved env.keplrFromWindow)
          { s with lastUsedKeplr := env.keplrFromWindow,
                   connectionType := some ConnType.extension }
      else if s.defaultConnectionType = some ConnType.walletConnect then
        if env.freshConnected then
          .immediate (.resolved (some env.wcWrapperKeplr))
            { s with lastUsedKeplr := some env.wcWrapperKeplr,
                     connectionType := some ConnType.walletConnect }
        else
          .pending (kPendingInit s)
      else
        .pending (kPendingInit s)

/-- Events that can reach an in-flight `getKeplr()` request: the four
EventChannel emissions driven by the two modals, and the connector's
terminal `connect` event (carrying an error on pairing failure). -/
inductive KEvent where
  | modal_close : KEvent
  | select_extension : KEvent
  | select_wallet_connect : KEvent
  | wc_qr_modal_close : KEvent
  | connectFires : Option Err → KEvent
deriving DecidableEq

/-- One event delivered to an in-flight `getKeplr()` request, mirroring
the handlers registered in lines 148-217 of `wc-keplr.tsx`.  An
EventChannel emission whose topic has no registered handler is a no-op.
The `select_wallet_connect` handler constructs a fresh connector,
registers the `wc_qr_modal_close` handler and branches on `connected`;
in the not-connected branch `createSession()` runs and its
`qrcodeModal.open` hook closes the selection modal, publishes the
pairing URI and captures the close-callback, and a `connect` handler is
attached to the connector.  The `connect` handler calls `cleanUp` first,
then rejects with the error or caches-and-resolves the wrapper. -/
def emitK (env : KEnv) (e : KEvent) (c : KConfig) : KConfig :=
  match e with
  | .modal_close =>
    if c.subs.modal_close then
      ({ c with st := { c.st with isModalOpen := false },
                promise := c.promise.doReject none }).cleanUp
    else c
  | .select_extension =>
    if c.subs.select_extension then
      ({ c with st := { c.st with isModalOpen := false,
                                  lastUsedKeplr := env.keplrFromWindow,
                                  connectionType := some ConnType.extension },
                promise := c.promise.doResolve env.keplrFromWindow }).cleanUp
    else c
  | .select_wallet_connect =>
    if c.subs.select_wallet_connect then
      if env.freshConnected then
        ({ c with st := { c.st with isModalOpen := false,
                                    lastUsedKeplr := some env.wcWrapperKeplr,
                                    connectionType := some ConnType.walletConnect },
                  subs := { c.subs with wc_qr_modal_close := true },
                  promise := c.promise.doResolve (some env.wcWrapperKeplr),
                  connector := some { connected := true, sessionCreated := false,
                                      hasConnectHandler := false } }).cleanUp
      else
        { c with st := { c.st with isModalOpen := false, wcUri := env.pairingUri },
                 subs := { c.subs with wc_qr_modal_close := true },
                 callbackClosed := true,
                 connector := some { connected := false, sessionCreated := true,
                                     hasConnectHandler := true } }
    else c
  | .wc_qr_modal_close =>
    if c.subs.wc_qr_modal_close then
      { c with st := { c.st with wcUri := "" },
               cancelInvoked := c.cancelInvoked || c.callbackClosed }
    else c
  | .connectFires err =>
    match c.connector with
    | some conn =>
      if conn.hasConnectHandler then
        match err with
        | some e =>
          ({ c with promise := c.promise.doReject (some e) }).cleanUp
        | none =>
          ({ c with st := { c.st with isModalOpen := false,
                                      lastUsedKeplr := some env.wcWrapperKeplr,
                                      connectionType := some ConnType.walletConnect },
                    promise := c.promise.doResolve (some env.wcWrapperKeplr),
                    connector := some { conn with connected := true } }).cleanUp
      else c
    | none => c

/-- Fold a list of events over an in-flight `getKeplr()` request. -/
def runK (env : KEnv) (es : List KEvent) (c : KConfig) : KConfig :=
  es.foldl (fun c e => emitK env e c) c

/-- `clearLastUsedKeplr` (lines 225-228 of `wc-keplr.tsx`): clears the
cached handle and resets `connectionType`; touches nothing else. -/
def clearLastUsedKeplr (s : KState) : KState :=
  { s with lastUsedKeplr := none, connectionType := none }

/- ------------------------------------------------------------------- -/
/- The generic broker: `src/components/GetWalletProvider.tsx`.         -/
/- ------------------------------------------------------------------- -/

/-- One entry of `walletInfoList`: its id and the handle its resolver
(`walletInfo.getWallet`) produces.  The resolver is the external
collaborator `probe(): Promise<WalletHandle | absent>`, modelled per its
interface as always producing a (possibly absent) value. -/
structure WalletInfo where
  id : String
  wallet : Option WalletHandle
deriving DecidableEq

/-- Provider-level mutable state of `GetWalletProvider`. -/
structure GState where
  isModalOpen : Bool
  wcUri : String
  lastUsedWallet : Option WalletHandle
  defaultConnectionType : Option String
  connectionType : Option String
deriving DecidableEq

/-- `WalletConnectQRCodeModal` is mounted with
`isOpen = (wcUri.length > 0)`. -/
def GState.qrOpen (s : GState) : Bool :=
  decide (s.wcUri.length > 0)

/-- Which EventChannel topics of the generic broker currently have a
handler registered: `modal_close`, `wc_qr_modal_close`, and one topic
per wallet id of `walletInfoList`. -/
structure GSubs where
  modal_close : Bool
  wc_qr_modal_close : Bool
  walletIds : List String
deriving DecidableEq

/-- Configuration of one in-flight `getWallet()` request.  The
connector field is not optional: the source constructs `wcConnector`
once per call, before the preference check.  `pendingWCInfo` records
which wallet descriptor the attached `connect` handler closed over. -/
structure GConfig where
  st : GState
  subs : GSubs
  promise : PromiseStatus
  callbackClosed : Bool
  cancelInvoked : Bool
  pendingWCInfo : Option WalletInfo
  connector : WCConnector
deriving DecidableEq

/-- `cleanUp` of `GetWalletProvider.tsx`: `eventListener.off` on
`modal_close`, `wc_qr_modal_close` and every wallet id. -/
def GConfig.cleanUp (c : GConfig) : GConfig :=
  { c with subs := { modal_close := false, wc_qr_modal_close := false,
                     walletIds := [] } }

/-- External inputs of one run of the generic broker. -/
structure GEnv where
  hasWindow : Bool
  walletInfoList : List WalletInfo
  freshConnected : Bool
  pairingUri : String
deriving DecidableEq

/-- `String.startsWith`, re-implemented structurally (via
`List.isPrefixOf` on the character lists) so that it reduces in the
kernel; used for the source's `walletInfo.id.startsWith("walletconnect")`
test. -/
def strStartsWith (s pre : String) : Bool :=
  pre.data.isPrefixOf s.data

/-- Result of calling `getWallet()`. -/
inductive GStart where
  | immediate : PromiseStatus → GState → GStart
  | pending : GConfig → GStart
deriving DecidableEq

/-- `resolveWallet` (lines 75-84 of `GetWalletProvider.tsx`): await the
descriptor's resolver, cache the handle, set `connectionType`, run
`cleanUp`, and resolve the request with the handle. -/
def resolveWalletG (info : WalletInfo) (c : GConfig) : GConfig :=
  ({ c with st := { c.st with lastUsedWallet := info.wallet,
                              connectionType := some info.id },
            promise := c.promise.doResolve info.wallet }).cleanUp

/-- The pending configuration built by the `new Promise` body of
`getWallet` (lines 93-132): selection modal opened, handlers registered
for `modal_close`, `wc_qr_modal_close` and each wallet id; the
connector was already constructed with the environment's persisted
`connected` flag. -/
def gPendingInit (env : GEnv) (s : GState) : GConfig :=
  { st := { s with isModalOpen := true },
    subs := { modal_close := true, wc_qr_modal_close := true,
              walletIds := env.walletInfoList.map WalletInfo.id },
    promise := .unsettled,
    callbackClosed := false,
    cancelInvoked := false,
    pendingWCInfo := none,
    connector := { connected := env.freshConnected, sessionCreated := false,
                   hasConnectHandler := false } }

/-- `getWallet` (lines 41-133 of `GetWalletProvider.tsx`), up to its
first suspension point: no `window`; cached handle; preference matched
against `walletInfoList` with `find` and, on a match, resolved directly
through `resolveWallet` (for every matching descriptor, including
walletconnect ones); otherwise the prompted path. -/
def getWallet (env : GEnv) (s : GState) : GStart :=
  if env.hasWindow = false then
    .immediate (.resolved none) s
  else
    match s.lastUsedWallet with
    | some w => .immediate (.resolved (some w)) s
    | none =>
      match env.walletInfoList.find? (fun wi => decide (s.defaultConnectionType = some wi.id)) with
      | some info =>
        .immediate (.resolved info.wallet)
          { s with lastUsedWallet := info.wallet, connectionType := some info.id }
      | none =>
        .pending (gPendingInit env s)

/-- Events that can reach an in-flight `getWallet()` request. -/
inductive GEvent where
  | modal_close : GEvent
  | selectWallet : String → GEvent
  | wc_qr_modal_close : GEvent
  | connectFires : Option Err → GEvent
deriving DecidableEq

/-- One event delivered to an in-flight `getWallet()` request, mirroring
the handlers of lines 96-131 of `GetWalletProvider.tsx`.  Selecting a
wallet whose id starts with "walletconnect" while the connector is not
connected calls `createSession()` (whose `qrcodeModal.open` hook
publishes the URI and captures the close-callback; this modal's open
hook does not touch the selection modal, which the handler itself closed)
and attaches a `connect` handler closing over that descriptor.  The
`connect` handler rejects on error WITHOUT calling `cleanUp`
(the source's listener leak), and on success runs `resolveWallet`. -/
def emitG (env : GEnv) (e : GEvent) (c : GConfig) : GConfig :=
  match e with
  | .modal_close =>
    if c.subs.modal_close then
      ({ c with st := { c.st with isModalOpen := false },
                promise := c.promise.doReject none }).cleanUp
    else c
  | .wc_qr_modal_close =>
    if c.subs.wc_qr_modal_close then
      { c with st := { c.st with wcUri := "" },
               cancelInvoked := c.cancelInvoked || c.callbackClosed }
    else c
  | .selectWallet wid =>
    if wid ∈ c.subs.walletIds then
      match env.walletInfoList.find? (fun wi => wi.id = wid) with
      | some info =>
        let c1 : GConfig := { c with st := { c.st with isModalOpen := false } }
        if strStartsWith info.id "walletconnect" then
          if c.connector.connected = false then
            { c1 with st := { c1.st with wcUri := env.pairingUri },
                      callbackClosed := true,
                      pendingWCInfo := some info,
                      connector := { c.connector with sessionCreated := true,
                                                      hasConnectHandler := true } }
          else
            resolveWalletG info c1
        else
          resolveWalletG info c1
      | none => c
    else c
  | .connectFires err =>
    if c.connector.hasConnectHandler then
      match err with
      | some e =>
        { c with promise := c.promise.doReject (some e) }
      | none =>
        match c.pendingWCInfo with
        | some info =>
          resolveWalletG info
            { c with connector := { c.connector with connected := true } }
        | none => c
    else c

/-- Fold a list of events over an in-flight `getWallet()` request. -/
def runG (env : GEnv) (es : List GEvent) (c : GConfig) : GConfig :=
  es.foldl (fun c e => emitG env e c) c

/-- `clearLastUsedWallet` (lines 139-142 of `GetWalletProvider.tsx`). -/
def clearLastUsedWallet (s : GState) : GState :=
  { s with lastUsedWallet := none, connectionType := none }

/- ------------------------------------------------------------------- -/
/- The broadcast helper `sendTxWC` (lines 23-68 of `wc-keplr.tsx`).    -/
/- ------------------------------------------------------------------- -/

/-- The fields of the broadcast response body that `sendTxWC` inspects
(`txResponse` in the source): the optional numeric `code`, the `txhash`
hex string, and the `raw_log` message. -/
structure TxResponse where
  code : Option Int
  txhash : String
  raw_log : String
deriving DecidableEq

/-- Value of one hex digit, as `Buffer.from(-, "hex")` accepts them
(both cases), `none` on a non-hex character. -/
def hexVal (ch : Char) : Option Nat :=
  if '0' ≤ ch ∧ ch ≤ '9' then some (ch.toNat - '0'.toNat)
  else if 'a' ≤ ch ∧ ch ≤ 'f' then some (ch.toNat - 'a'.toNat + 10)
  else if 'A' ≤ ch ∧ ch ≤ 'F' then some (ch.toNat - 'A'.toNat + 10)
  else none

/-- Node's `Buffer.from(str, "hex")`: decode consecutive two-digit hex
pairs, truncating at the first invalid pair or lone trailing digit. -/
def hexDecode : List Char → List Nat
  | c1 :: c2 :: rest =>
    match hexVal c1, hexVal c2 with
    | some hi, some lo => (16 * hi + lo) :: hexDecode rest
    | _, _ => []
  | _ => []

/-- Response handling of `sendTxWC` (lines 63-67 of `wc-keplr.tsx`): the
HTTP POST itself is external IO; given the response body it throws
`new Error(raw_log)` when `code != null && code !== 0`, and otherwise
returns `Buffer.from(txhash, "hex")`. -/
def sendTxWC (resp : TxResponse) : Except String (List Nat) :=
  match resp.code with
  | some c => if c ≠ 0 then .error resp.raw_log else .ok (hexDecode resp.txhash.data)
  | none => .ok (hexDecode resp.txhash.data)

/- ------------------------------------------------------------------- -/
/- Concrete fixtures used by counterexamples and witnesses.            -/
/- ------------------------------------------------------------------- -/

/-- Fresh provider state of the Keplr broker: both modals hidden, empty
cache, no preference. -/
def kInit : KState :=
  { isModalOpen := false, wcUri := "", lastUsedKeplr := none,
    defaultConnectionType := none, connectionType := none }

/-- A browser environment for the Keplr broker: window present, an
injected extension whose handle is `7`, no restored WalletConnect
session, pairing URI "wc:abc123" (spec scenario B), wrapper handle `5`. -/
def kEnv0 : KEnv :=
  { hasWindow := true, keplrFromWindow := some 7, freshConnected := false,
    pairingUri := "wc:abc123", wcWrapperKeplr := 5 }

/-- The pending request configuration of a `getKeplr()` call from the
fresh state. -/
def kCfg0 : KConfig := kPendingInit kInit

/-- Same environment with no injected extension. -/
def kEnvNoExt : KEnv := { kEnv0 with keplrFromWindow := none }

/-- Same environment with a restored, already connected session. -/
def kEnvConn : KEnv := { kEnv0 with freshConnected := true }

/-- Fresh Keplr state with the "extension" preference stored. -/
def kPrefExtState : KState := { kInit with defaultConnectionType := some ConnType.extension }

/-- Fresh Keplr state with the "wallet-connect" preference stored. -/
def kPrefWCState : KState := { kInit with defaultConnectionType := some ConnType.walletConnect }

/-- The Keplr request configuration after the user picked
"wallet-connect" with no connected session: `createSession()` ran, the
pairing URI is visible, the close-callback is captured. -/
def kCfgQR : KConfig := runK kEnv0 [KEvent.select_wallet_connect] kCfg0

/-- Fresh provider state of the generic broker. -/
def gInit : GState :=
  { isModalOpen := false, wcUri := "", lastUsedWallet := none,
    defaultConnectionType := none, connectionType := none }

/-- Environment for the generic broker: two descriptors as in spec
scenario A, no restored WalletConnect session. -/
def gEnv0 : GEnv :=
  { hasWindow := true,
    walletInfoList := [{ id := "extension", wallet := some 7 },
                       { id := "walletconnect", wallet := some 9 }],
    freshConnected := false, pairingUri := "wc:abc123" }

/-- The pending request configuration of a `getWallet()` call from the
fresh state. -/
def gCfg0 : GConfig := gPendingInit gEnv0 gInit

/-- Same environment with a restored, already connected session. -/
def gEnvConn : GEnv := { gEnv0 with freshConnected := true }

/-- Pending configuration under `gEnvConn`. -/
def gCfgConn : GConfig := gPendingInit gEnvConn gInit

/-- Fresh generic-broker state with the "walletconnect" preference. -/
def gPrefWCState : GState := { gInit with defaultConnectionType := some "walletconnect" }

/- ------------------------------------------------------------------- -/
/- Helper lemmas on promise settlement.                                -/
/- ------------------------------------------------------------------- -/

/-- A settled promise is unchanged by a further `resolve` call. -/
theorem doResolve_of_settled (p : PromiseStatus) (w : Option WalletHandle)
    (h : p.isSettled = true) : p.doResolve w = p := by
  cases p with
  | unsettled => simp [PromiseStatus.isSettled] at h
  | resolved v => rfl
  | rejected e => rfl

/-- A settled promise is unchanged by a further `reject` call. -/
theorem doReject_of_settled (p : PromiseStatus) (e : Option Err)
    (h : p.isSettled = true) : p.doReject e = p := by
  cases p with
  | unsettled => simp [PromiseStatus.isSettled] at h
  | resolved v => rfl
  | rejected e => rfl

/-- After a `resolve` call the promise is settled. -/
theorem isSettled_doResolve (p : PromiseStatus) (w : Option WalletHandle) :
    (p.doResolve w).isSettled = true := by
  cases p <;> rfl

/-- After a `reject` call the promise is settled. -/
theorem isSettled_doReject (p : PromiseStatus) (e : Option Err) :
    (p.doReject e).isSettled = true := by
  cases p <;> rfl

@[simp] theorem kCleanUp_st (c : KConfig) : c.cleanUp.st = c.st := rfl

@[simp] theorem kCleanUp_promise (c : KConfig) : c.cleanUp.promise = c.promise := rfl

@[simp] theorem gCleanUp_st (c : GConfig) : c.cleanUp.st = c.st := rfl

@[simp] theorem gCleanUp_promise (c : GConfig) : c.cleanUp.promise = c.promise := rfl

@[simp] theorem resolveWalletG_promise (info : WalletInfo) (c : GConfig) :
    (resolveWalletG info c).promise = c.promise.doResolve info.wallet := rfl

@[simp] theorem resolveWalletG_lastUsed (info : WalletInfo) (c : GConfig) :
    (resolveWalletG info c).st.lastUsedWallet = info.wallet := rfl

/- ------------------------------------------------------------------- -/
/- Claim theorems.                                                     -/
/- ------------------------------------------------------------------- -/

/-- Claim C10: with no `window` object (server-side rendering), every
`request()` call of either broker resolves immediately with an absent
value: it does not reject, registers no listeners, opens no prompter and
leaves the whole provider state (cache, preference, `connectionType`)
unchanged — the result is `immediate` (so no pending configuration
exists) with the state returned verbatim. -/
theorem c10_ssr_resolves_absent (kenv : KEnv) (s : KState) (genv : GEnv) (g : GState) :
    getKeplr { kenv with hasWindow := false } s
      = KStart.immediate (PromiseStatus.resolved none) s ∧
    getWallet { genv with hasWindow := false } g
      = GStart.immediate (PromiseStatus.resolved none) g :=
  ⟨rfl, rfl⟩

/-- Claim C9: `clearLastUsedWallet` / `clearLastUsedKeplr` clear the
cached session slot and reset `connectionType` to absent, leave the
stored connection preference (and every other state component)
unchanged, and are idempotent. -/
theorem c9_clear_frame_idempotent (s : KState) (g : GState) :
    (clearLastUsedKeplr s).lastUsedKeplr = none ∧
    (clearLastUsedKeplr s).connectionType = none ∧
    (clearLastUsedKeplr s).defaultConnectionType = s.defaultConnectionType ∧
    (clearLastUsedKeplr s).isModalOpen = s.isModalOpen ∧
    (clearLastUsedKeplr s).wcUri = s.wcUri ∧
    clearLastUsedKeplr (clearLastUsedKeplr s) = clearLastUsedKeplr s ∧
    (clearLastUsedWallet g).lastUsedWallet = none ∧
    (clearLastUsedWallet g).connectionType = none ∧
    (clearLastUsedWallet g).defaultConnectionType = g.defaultConnectionType ∧
    (clearLastUsedWallet g).isModalOpen = g.isModalOpen ∧
    (clearLastUsedWallet g).wcUri = g.wcUri ∧
    clearLastUsedWallet (clearLastUsedWallet g) = clearLastUsedWallet g :=
  ⟨rfl, rfl, rfl, rfl, rfl, rfl, rfl, rfl, rfl, rfl, rfl, rfl⟩

/-- Claim C8: `sendTxWC` succeeds with the hex-decoded `txhash` iff the
response's `code` is absent or `0`, and for any nonzero `code` it throws
an error carrying the response's `raw_log`. -/
theorem c8_sendTxWC_code (resp : TxResponse) :
    (sendTxWC resp = Except.ok (hexDecode resp.txhash.data) ↔
      resp.code = none ∨ resp.code = some 0) ∧
    (∀ c : Int, resp.code = some c → c ≠ 0 →
      sendTxWC resp = Except.error resp.raw_log) := by
  obtain ⟨code, txhash, rawlog⟩ := resp
  constructor
  · cases code with
    | none => simp [sendTxWC]
    | some c =>
      by_cases hc : c = 0 <;> simp [sendTxWC, hc]
  · intro c hcode hc
    cases code with
    | none => cases hcode
    | some c' =>
      obtain rfl : c' = c := by injection hcode
      simp [sendTxWC, hc]

/-- Witness for claim C8 at spec scenario C: `{code: 0, txhash: "AA11"}`
yields the bytes `[0xAA, 0x11]`, and `{code: 5, raw_log: "insufficient
funds"}` yields an error carrying that log. -/
theorem c8_sendTxWC_code_witness :
    sendTxWC { code := some 0, txhash := "AA11", raw_log := "" }
      = Except.ok [170, 17] ∧
    (5 : Int) ≠ 0 ∧
    sendTxWC { code := some 5, txhash := "", raw_log := "insufficient funds" }
      = Except.error "insufficient funds" := by
  refine ⟨?_, by decide, ?_⟩
  · exact ((c8_sendTxWC_code { code := some 0, txhash := "AA11", raw_log := "" }).1.mpr
      (Or.inr rfl)).trans rfl
  · exact (c8_sendTxWC_code { code := some 5, txhash := "", raw_log := "insufficient funds" }).2
      5 rfl (by decide)

/-- Claim C2, evaluated at the failing input: in the generic broker
(`GetWalletProvider.tsx`), after the prompted selection of the
"walletconnect" method with an unconnected connector, the pairing
terminal event firing with an error rejects the request while every
EventChannel subscription the request registered (the `modal_close` and
`wc_qr_modal_close` handlers and both per-wallet handlers) is still
registered: the connect-error branch calls `reject(error)` without
`cleanUp()`, violating the removal invariant at this terminal
transition. -/
theorem c2_listener_leak_eval :
    getWallet gEnv0 gInit = GStart.pending gCfg0 ∧
    (runG gEnv0 [GEvent.selectWallet "walletconnect",
                 GEvent.connectFires (some "pairing failed")] gCfg0).promise
      = PromiseStatus.rejected (some "pairing failed") ∧
    (runG gEnv0 [GEvent.selectWallet "walletconnect",
                 GEvent.connectFires (some "pairing failed")] gCfg0).subs
      = { modal_close := true, wc_qr_modal_close := true,
          walletIds := ["extension", "walletconnect"] } := by
  refine ⟨by decide, by decide, by decide⟩

/-- Claim C1 counterexample: the pairing-dismissal path settles the
promise zero times, not exactly once.  Concretely: `getKeplr()` from the
fresh state suspends; the user picks "wallet-connect" (no connected
session, so `createSession()` issues the URI); the user then dismisses
the pairing prompter.  The prompter is hidden, yet the request promise
is still unsettled — neither `resolve` nor `reject` ever fired on this
completed dismissal path. -/
theorem c1_counterexample :
    getKeplr kEnv0 kInit = KStart.pending kCfg0 ∧
    (runK kEnv0 [KEvent.select_wallet_connect] kCfg0).st.qrOpen = true ∧
    (runK kEnv0 [KEvent.select_wallet_connect, KEvent.wc_qr_modal_close] kCfg0).st.qrOpen
      = false ∧
    (runK kEnv0 [KEvent.select_wallet_connect, KEvent.wc_qr_modal_close] kCfg0).promise
      = PromiseStatus.unsettled := by
  refine ⟨by decide, by decide, by decide, by decide⟩

/-- Claim C3 counterexample: dismissing the pairing prompter before the
pairing terminal event does NOT reject the owning `request()` promise —
in both brokers the `wc_qr_modal_close` handler only hides the prompter
and invokes the captured close-callback, and the promise stays
unsettled (in particular it is not rejected with any `UserCancelled`
failure). -/
theorem c3_counterexample :
    (runK kEnv0 [KEvent.select_wallet_connect, KEvent.wc_qr_modal_close] kCfg0).cancelInvoked
      = true ∧
    (runK kEnv0 [KEvent.select_wallet_connect, KEvent.wc_qr_modal_close] kCfg0).st.lastUsedKeplr
      = none ∧
    ((runK kEnv0 [KEvent.select_wallet_connect, KEvent.wc_qr_modal_close] kCfg0).promise).isSettled
      = false ∧
    (runG gEnv0 [GEvent.selectWallet "walletconnect", GEvent.wc_qr_modal_close] gCfg0).promise
      = PromiseStatus.unsettled := by
  refine ⟨by decide, by decide, by decide, by decide⟩

/-- Claim C4 counterexample: when no injected extension is present, the
Keplr broker does not reject with any `ExtensionNotFound` failure — both
the prompted `select_extension` path and the extension-preference
shortcut RESOLVE the promise with the absent value returned by the
probe, and even set `connectionType` to "extension". -/
theorem c4_counterexample :
    (emitK kEnvNoExt KEvent.select_extension kCfg0).promise = PromiseStatus.resolved none ∧
    (emitK kEnvNoExt KEvent.select_extension kCfg0).st.connectionType
      = some ConnType.extension ∧
    getKeplr kEnvNoExt kPrefExtState
      = KStart.immediate (PromiseStatus.resolved none)
          { kPrefExtState with connectionType := some ConnType.extension } := by
  refine ⟨by decide, by decide, by decide⟩

/-- Claim C6 counterexample: in the Keplr broker, with an empty cache and
the stored preference "wallet-connect" but no already connected session,
`request()` does NOT invoke the resolver directly: it falls through to
the prompted path and shows the SelectionPrompter. -/
theorem c6_counterexample :
    kEnv0.freshConnected = false ∧
    getKeplr kEnv0 kPrefWCState = KStart.pending (kPendingInit kPrefWCState) ∧
    (kPendingInit kPrefWCState).st.isModalOpen = true ∧
    (kPendingInit kPrefWCState).promise = PromiseStatus.unsettled := by
  refine ⟨by decide, by decide, by decide, by decide⟩

/-- Once the promise of an in-flight `getKeplr()` request is settled, no
further event changes it (Promises/A+ semantics: the handlers may still
run, but their `resolve`/`reject` calls are no-ops). -/
theorem emitK_settled_frozen (env : KEnv) (e : KEvent) (c : KConfig)
    (h : c.promise.isSettled = true) : (emitK env e c).promise = c.promise := by
  cases e <;> simp only [emitK] <;> (repeat' split) <;>
    simp_all [doResolve_of_settled, doReject_of_settled]

/-- Once the promise of an in-flight `getWallet()` request is settled,
no further event changes it. -/
theorem emitG_settled_frozen (env : GEnv) (e : GEvent) (c : GConfig)
    (h : c.promise.isSettled = true) : (emitG env e c).promise = c.promise := by
  cases e <;> simp only [emitG] <;> (repeat' split) <;>
    simp_all [doResolve_of_settled, doReject_of_settled, resolveWalletG]

/-- Claim C3 (amended): when the user dismisses the pairing (QR)
prompter before the pairing terminal event fires, each broker hides the
prompter (the URI is cleared) and invokes the pairing protocol's cancel
hook if one was supplied, and leaves the cached session slot untouched;
but the broker does NOT itself settle the owning `request()` promise —
it stays exactly as it was, and rejection can only come from the
connector's own terminal event afterwards. -/
theorem c3_pairing_dismissal_amended (kenv : KEnv) (genv : GEnv) :
    (∀ c : KConfig, c.subs.wc_qr_modal_close = true →
      (emitK kenv KEvent.wc_qr_modal_close c).st.wcUri = "" ∧
      (emitK kenv KEvent.wc_qr_modal_close c).st.qrOpen = false ∧
      (emitK kenv KEvent.wc_qr_modal_close c).cancelInvoked
        = (c.cancelInvoked || c.callbackClosed) ∧
      (emitK kenv KEvent.wc_qr_modal_close c).st.lastUsedKeplr = c.st.lastUsedKeplr ∧
      (emitK kenv KEvent.wc_qr_modal_close c).promise = c.promise) ∧
    (∀ c : GConfig, c.subs.wc_qr_modal_close = true →
      (emitG genv GEvent.wc_qr_modal_close c).st.wcUri = "" ∧
      (emitG genv GEvent.wc_qr_modal_close c).st.qrOpen = false ∧
      (emitG genv GEvent.wc_qr_modal_close c).cancelInvoked
        = (c.cancelInvoked || c.callbackClosed) ∧
      (emitG genv GEvent.wc_qr_modal_close c).st.lastUsedWallet = c.st.lastUsedWallet ∧
      (emitG genv GEvent.wc_qr_modal_close c).promise = c.promise) := by
  constructor
  · intro c h
    refine ⟨?_, ?_, ?_, ?_, ?_⟩ <;> simp [emitK, h, KState.qrOpen]
  · intro c h
    refine ⟨?_, ?_, ?_, ?_, ?_⟩ <;> simp [emitG, h, GState.qrOpen]

/-- Witness for claim C3 (amended), at the spec scenario B input: the
QR prompter is open with uri "wc:abc123" and a captured close-callback;
dismissal hides it, invokes the hook, keeps the cache empty and leaves
the promise unsettled. -/
theorem c3_pairing_dismissal_amended_witness :
    kCfgQR.subs.wc_qr_modal_close = true ∧
    (emitK kEnv0 KEvent.wc_qr_modal_close kCfgQR).st.qrOpen = false ∧
    (emitK kEnv0 KEvent.wc_qr_modal_close kCfgQR).cancelInvoked
      = (kCfgQR.cancelInvoked || kCfgQR.callbackClosed) ∧
    (emitK kEnv0 KEvent.wc_qr_modal_close kCfgQR).promise = kCfgQR.promise ∧
    gCfg0.subs.wc_qr_modal_close = true ∧
    (emitG gEnv0 GEvent.wc_qr_modal_close gCfg0).promise = gCfg0.promise := by
  have h := c3_pairing_dismissal_amended kEnv0 gEnv0
  have hk := h.1 kCfgQR (by decide)
  have hg := h.2 gCfg0 (by decide)
  exact ⟨by decide, hk.2.1, hk.2.2.1, hk.2.2.2.2, by decide, hg.2.2.2.2⟩

/-- Claim C4 (amended): on the prompted `select_extension` path and on
the extension-preference shortcut the broker awaits the ExtensionLocator
probe, but when no injected extension is present the `request()` promise
RESOLVES with the probe's absent result (undefined) instead of rejecting
with an `ExtensionNotFound` failure (the cache slot receives the absent
value and `connectionType` is still set to "extension"); the
selection-dismissal rejection carries no payload at all (`reject()`), so
rejections are not distinguishable by kind. -/
theorem c4_extension_probe_amended (kenv : KEnv) :
    (∀ c : KConfig, c.subs.select_extension = true →
      (emitK kenv KEvent.select_extension c).promise
        = c.promise.doResolve kenv.keplrFromWindow ∧
      (emitK kenv KEvent.select_extension c).st.lastUsedKeplr = kenv.keplrFromWindow ∧
      (emitK kenv KEvent.select_extension c).st.connectionType = some ConnType.extension) ∧
    (∀ s : KState, kenv.hasWindow = true → s.lastUsedKeplr = none →
      s.defaultConnectionType = some ConnType.extension →
      getKeplr kenv s
        = KStart.immediate (PromiseStatus.resolved kenv.keplrFromWindow)
            { s with lastUsedKeplr := kenv.keplrFromWindow,
                     connectionType := some ConnType.extension }) ∧
    (∀ c : KConfig, c.subs.modal_close = true →
      (emitK kenv KEvent.modal_close c).promise = c.promise.doReject none) := by
  refine ⟨?_, ?_, ?_⟩
  · intro c h
    refine ⟨?_, ?_, ?_⟩ <;> simp [emitK, h]
  · intro s hw hc hp
    simp [getKeplr, hw, hc, hp]
  · intro c h
    simp [emitK, h]

/-- Witness for claim C4 (amended): with no injected extension,
selecting "extension" resolves the promise with the absent value. -/
theorem c4_extension_probe_amended_witness :
    kCfg0.subs.select_extension = true ∧
    (emitK kEnvNoExt KEvent.select_extension kCfg0).promise
      = kCfg0.promise.doResolve kEnvNoExt.keplrFromWindow ∧
    (emitK kEnvNoExt KEvent.select_extension kCfg0).st.lastUsedKeplr
      = kEnvNoExt.keplrFromWindow ∧
    kPrefExtState.defaultConnectionType = some ConnType.extension ∧
    getKeplr kEnvNoExt kPrefExtState
      = KStart.immediate (PromiseStatus.resolved kEnvNoExt.keplrFromWindow)
          { kPrefExtState with lastUsedKeplr := kEnvNoExt.keplrFromWindow,
                               connectionType := some ConnType.extension } := by
  have h := c4_extension_probe_amended kEnvNoExt
  have h1 := h.1 kCfg0 (by decide)
  have h2 := h.2.1 kPrefExtState (by decide) (by decide) (by decide)
  exact ⟨by decide, h1.1, h1.2.1, by decide, h2⟩

/-- Claim C6 (amended): with an empty cache, the preference
short-circuit holds in the generic broker for EVERY matching descriptor
(the matching resolver is invoked directly, the SelectionPrompter is
never shown — the returned state keeps `isModalOpen` as it was — and on
resolution the cache slot and `connectionType` are populated); in the
Keplr broker it holds for the "extension" preference always, and for the
"wallet-connect" preference only when the freshly constructed connector
already reports `connected` — otherwise the call falls through to the
prompted path and shows the SelectionPrompter. -/
theorem c6_preference_amended (kenv : KEnv) (genv : GEnv) :
    (∀ (s : GState) (info : WalletInfo), genv.hasWindow = true → s.lastUsedWallet = none →
      genv.walletInfoList.find? (fun wi => decide (s.defaultConnectionType = some wi.id))
        = some info →
      getWallet genv s
        = GStart.immediate (PromiseStatus.resolved info.wallet)
            { s with lastUsedWallet := info.wallet, connectionType := some info.id }) ∧
    (∀ s : KState, kenv.hasWindow = true → s.lastUsedKeplr = none →
      s.defaultConnectionType = some ConnType.extension →
      getKeplr kenv s
        = KStart.immediate (PromiseStatus.resolved kenv.keplrFromWindow)
            { s with lastUsedKeplr := kenv.keplrFromWindow,
                     connectionType := some ConnType.extension }) ∧
    (∀ s : KState, kenv.hasWindow = true → s.lastUsedKeplr = none →
      s.defaultConnectionType = some ConnType.walletConnect → kenv.freshConnected = true →
      getKeplr kenv s
        = KStart.immediate (PromiseStatus.resolved (some kenv.wcWrapperKeplr))
            { s with lastUsedKeplr := some kenv.wcWrapperKeplr,
                     connectionType := some ConnType.walletConnect }) ∧
    (∀ s : KState, kenv.hasWindow = true → s.lastUsedKeplr = none →
      s.defaultConnectionType = some ConnType.walletConnect → kenv.freshConnected = false →
      getKeplr kenv s = KStart.pending (kPendingInit s) ∧
      (kPendingInit s).st.isModalOpen = true) := by
  refine ⟨?_, ?_, ?_, ?_⟩
  · intro s info hw hc hfind
    simp [getWallet, hw, hc, hfind]
  · intro s hw hc hp
    simp [getKeplr, hw, hc, hp]
  · intro s hw hc hp hconn
    simp [getKeplr, hw, hc, hp, hconn]
  · intro s hw hc hp hconn
    refine ⟨?_, rfl⟩
    simp [getKeplr, hw, hc, hp, hconn]

/-- Witness for claim C6 (amended): the generic broker with the
"walletconnect" preference resolves directly (remote method included),
and the Keplr broker with the "wallet-connect" preference and no
connected session falls through to the prompt. -/
theorem c6_preference_amended_witness :
    gEnv0.walletInfoList.find?
        (fun wi => decide (gPrefWCState.defaultConnectionType = some wi.id))
      = some { id := "walletconnect", wallet := some 9 } ∧
    getWallet gEnv0 gPrefWCState
      = GStart.immediate (PromiseStatus.resolved (some 9))
          { gPrefWCState with lastUsedWallet := some 9,
                              connectionType := some "walletconnect" } ∧
    getKeplr kEnv0 kPrefWCState = KStart.pending (kPendingInit kPrefWCState) := by
  have h := c6_preference_amended kEnv0 gEnv0
  refine ⟨by decide, ?_, ?_⟩
  · exact h.1 gPrefWCState { id := "walletconnect", wallet := some 9 }
      (by decide) (by decide) (by decide)
  · exact (h.2.2.2 kPrefWCState (by decide) (by decide) (by decide) (by decide)).1

/-- Claim C7: when the remote (walletconnect) method is selected while
the connector already reports `connected == true`, both brokers resolve
the request via the resolver immediately: no `createSession()` call is
made (the Keplr broker's freshly built connector still has
`sessionCreated = false`; the generic broker's connector is untouched),
the pairing URI is not changed (so the PairingPrompter is not shown),
and the cache is populated; likewise the Keplr wallet-connect preference
shortcut with a connected session resolves with no pairing. -/
theorem c7_session_reuse (kenv : KEnv) (genv : GEnv) :
    (∀ c : KConfig, c.subs.select_wallet_connect = true → kenv.freshConnected = true →
      (emitK kenv KEvent.select_wallet_connect c).promise
        = c.promise.doResolve (some kenv.wcWrapperKeplr) ∧
      (emitK kenv KEvent.select_wallet_connect c).st.wcUri = c.st.wcUri ∧
      (emitK kenv KEvent.select_wallet_connect c).connector
        = some { connected := true, sessionCreated := false, hasConnectHandler := false } ∧
      (emitK kenv KEvent.select_wallet_connect c).st.lastUsedKeplr
        = some kenv.wcWrapperKeplr) ∧
    (∀ s : KState, kenv.hasWindow = true → s.lastUsedKeplr = none →
      s.defaultConnectionType = some ConnType.walletConnect → kenv.freshConnected = true →
      getKeplr kenv s
        = KStart.immediate (PromiseStatus.resolved (some kenv.wcWrapperKeplr))
            { s with lastUsedKeplr := some kenv.wcWrapperKeplr,
                     connectionType := some ConnType.walletConnect }) ∧
    (∀ (c : GConfig) (wid : String) (info : WalletInfo), wid ∈ c.subs.walletIds →
      genv.walletInfoList.find? (fun wi => decide (wi.id = wid)) = some info →
      strStartsWith info.id "walletconnect" = true →
      c.connector.connected = true →
      (emitG genv (GEvent.selectWallet wid) c).promise = c.promise.doResolve info.wallet ∧
      (emitG genv (GEvent.selectWallet wid) c).st.wcUri = c.st.wcUri ∧
      (emitG genv (GEvent.selectWallet wid) c).connector = c.connector ∧
      (emitG genv (GEvent.selectWallet wid) c).st.lastUsedWallet = info.wallet) := by
  refine ⟨?_, ?_, ?_⟩
  · intro c h hconn
    refine ⟨?_, ?_, ?_, ?_⟩ <;> simp [emitK, h, hconn, KConfig.cleanUp]
  · intro s hw hc hp hconn
    simp [getKeplr, hw, hc, hp, hconn]
  · intro c wid info hmem hfind hsw hconn
    refine ⟨?_, ?_, ?_, ?_⟩ <;>
      simp [emitG, hmem, hfind, hsw, hconn, resolveWalletG, GConfig.cleanUp]

/-- Witness for claim C7: with a restored connected session, selecting
"wallet-connect" in the Keplr broker and "walletconnect" in the generic
broker resolves with no session creation and no pairing URI. -/
theorem c7_session_reuse_witness :
    kCfg0.subs.select_wallet_connect = true ∧
    (emitK kEnvConn KEvent.select_wallet_connect kCfg0).promise
      = kCfg0.promise.doResolve (some kEnvConn.wcWrapperKeplr) ∧
    (emitK kEnvConn KEvent.select_wallet_connect kCfg0).connector
      = some { connected := true, sessionCreated := false, hasConnectHandler := false } ∧
    (emitG gEnvConn (GEvent.selectWallet "walletconnect") gCfgConn).promise
      = gCfgConn.promise.doResolve (some 9) ∧
    (emitG gEnvConn (GEvent.selectWallet "walletconnect") gCfgConn).st.wcUri
      = gCfgConn.st.wcUri := by
  have h := c7_session_reuse kEnvConn gEnvConn
  have hk := h.1 kCfg0 (by decide) (by decide)
  have hg := h.2.2 gCfgConn "walletconnect" { id := "walletconnect", wallet := some 9 }
    (by decide) (by decide) (by decide) (by decide)
  exact ⟨by decide, hk.1, hk.2.2.1, hg.1, hg.2.1⟩

/-- Claim C5: after a `request()` call resolves successfully with a
wallet handle, every subsequent `request()` call resolves immediately
with the identical cached handle and performs no side effects at all
(the returned provider state is the input state, so no prompter is
shown and no resolver runs), until `clearLastUsedWallet()` empties the
slot.  The cache is guaranteed to be populated by success: every event
that resolves the promise with a handle has already written that very
handle into the cache slot, and so has every immediate resolution path. -/
theorem c5_cache_idempotence (kenv : KEnv) (genv : GEnv) :
    (∀ (s : KState) (w : WalletHandle), kenv.hasWindow = true → s.lastUsedKeplr = some w →
      getKeplr kenv s = KStart.immediate (PromiseStatus.resolved (some w)) s) ∧
    (∀ (g : GState) (w : WalletHandle), genv.hasWindow = true → g.lastUsedWallet = some w →
      getWallet genv g = GStart.immediate (PromiseStatus.resolved (some w)) g) ∧
    (∀ (c : KConfig) (e : KEvent) (w : WalletHandle),
      c.promise = PromiseStatus.unsettled →
      (emitK kenv e c).promise = PromiseStatus.resolved (some w) →
      (emitK kenv e c).st.lastUsedKeplr = some w) ∧
    (∀ (c : GConfig) (e : GEvent) (w : WalletHandle),
      c.promise = PromiseStatus.unsettled →
      (emitG genv e c).promise = PromiseStatus.resolved (some w) →
      (emitG genv e c).st.lastUsedWallet = some w) ∧
    (∀ (s s' : KState) (p : PromiseStatus) (w : WalletHandle),
      getKeplr kenv s = KStart.immediate p s' → p = PromiseStatus.resolved (some w) →
      s'.lastUsedKeplr = some w) ∧
    (∀ (g g' : GState) (p : PromiseStatus) (w : WalletHandle),
      getWallet genv g = GStart.immediate p g' → p = PromiseStatus.resolved (some w) →
      g'.lastUsedWallet = some w) := by
  refine ⟨?_, ?_, ?_, ?_, ?_, ?_⟩
  · intro s w hw hc
    simp [getKeplr, hw, hc]
  · intro g w hw hc
    simp [getWallet, hw, hc]
  · intro c e w hu hr
    cases e <;> simp only [emitK] at hr ⊢ <;> (repeat' split at hr) <;>
      simp_all [PromiseStatus.doResolve, PromiseStatus.doReject, KConfig.cleanUp]
  · intro c e w hu hr
    cases e <;> simp only [emitG] at hr ⊢ <;> (repeat' split at hr) <;>
      simp_all [PromiseStatus.doResolve, PromiseStatus.doReject, GConfig.cleanUp,
        resolveWalletG]
  · intro s s' p w hstart hp
    unfold getKeplr at hstart
    (repeat' split at hstart) <;> simp_all <;>
      (obtain ⟨h1, h2⟩ := hstart; subst h2; simp [h1])
  · intro g g' p w hstart hp
    unfold getWallet at hstart
    (repeat' split at hstart) <;> simp_all <;>
      (obtain ⟨h1, h2⟩ := hstart; subst h2; simp [h1])

/-- Witness for claim C5: with handle `7` cached, `getKeplr` and
`getWallet` return it immediately with the state unchanged. -/
theorem c5_cache_idempotence_witness :
    ({ kInit with lastUsedKeplr := some 7 } : KState).lastUsedKeplr = some 7 ∧
    getKeplr kEnv0 { kInit with lastUsedKeplr := some 7 }
      = KStart.immediate (PromiseStatus.resolved (some 7))
          { kInit with lastUsedKeplr := some 7 } ∧
    getWallet gEnv0 { gInit with lastUsedWallet := some 7 }
      = GStart.immediate (PromiseStatus.resolved (some 7))
          { gInit with lastUsedWallet := some 7 } := by
  have h := c5_cache_idempotence kEnv0 gEnv0
  refine ⟨by decide, ?_, ?_⟩
  · exact h.1 { kInit with lastUsedKeplr := some 7 } 7 (by decide) (by decide)
  · exact h.2.1 { gInit with lastUsedWallet := some 7 } 7 (by decide) (by decide)

/-- Claim C1 (amended): the `request()` promise of either broker settles
AT MOST once — once settled, no later event changes it — and it settles
exactly once on the cache-hit, preference-hit, no-window,
selection-dismissal, prompted-selection, session-reuse paths and on the
pairing-success / pairing-failure terminal events.  The amendment forced
by the counterexample: the pairing-prompter-dismissal handler
(`wc_qr_modal_close`) never fires resolve or reject at all — on that
path the broker leaves the promise exactly as it was, and settlement can
only come from the connector's own terminal event afterwards. -/
theorem c1_exactly_once_amended (kenv : KEnv) (genv : GEnv) :
    (∀ (c : KConfig) (e : KEvent), c.promise.isSettled = true →
      (emitK kenv e c).promise = c.promise) ∧
    (∀ (c : GConfig) (e : GEvent), c.promise.isSettled = true →
      (emitG genv e c).promise = c.promise) ∧
    (∀ (s : KState) (p : PromiseStatus) (s' : KState),
      getKeplr kenv s = KStart.immediate p s' → p.isSettled = true) ∧
    (∀ (g : GState) (p : PromiseStatus) (g' : GState),
      getWallet genv g = GStart.immediate p g' → p.isSettled = true) ∧
    (∀ c : KConfig, c.subs.modal_close = true →
      ((emitK kenv KEvent.modal_close c).promise).isSettled = true) ∧
    (∀ c : KConfig, c.subs.select_extension = true →
      ((emitK kenv KEvent.select_extension c).promise).isSettled = true) ∧
    (∀ c : KConfig, c.subs.select_wallet_connect = true → kenv.freshConnected = true →
      ((emitK kenv KEvent.select_wallet_connect c).promise).isSettled = true) ∧
    (∀ (c : KConfig) (err : Option Err),
      c.subs.select_wallet_connect = true → kenv.freshConnected = false →
      ((emitK kenv (KEvent.connectFires err)
          (emitK kenv KEvent.select_wallet_connect c)).promise).isSettled = true) ∧
    (∀ c : GConfig, c.subs.modal_close = true →
      ((emitG genv GEvent.modal_close c).promise).isSettled = true) ∧
    (∀ (c : GConfig) (wid : String) (info : WalletInfo),
      wid ∈ c.subs.walletIds →
      genv.walletInfoList.find? (fun wi => decide (wi.id = wid)) = some info →
      strStartsWith info.id "walletconnect" = false →
      ((emitG genv (GEvent.selectWallet wid) c).promise).isSettled = true) ∧
    (∀ (c : GConfig) (wid : String) (info : WalletInfo),
      wid ∈ c.subs.walletIds →
      genv.walletInfoList.find? (fun wi => decide (wi.id = wid)) = some info →
      c.connector.connected = true →
      ((emitG genv (GEvent.selectWallet wid) c).promise).isSettled = true) ∧
    (∀ (c : GConfig) (wid : String) (info : WalletInfo) (err : Option Err),
      wid ∈ c.subs.walletIds →
      genv.walletInfoList.find? (fun wi => decide (wi.id = wid)) = some info →
      strStartsWith info.id "walletconnect" = true →
      c.connector.connected = false →
      ((emitG genv (GEvent.connectFires err)
          (emitG genv (GEvent.selectWallet wid) c)).promise).isSettled = true) ∧
    (∀ c : KConfig, (emitK kenv KEvent.wc_qr_modal_close c).promise = c.promise) ∧
    (∀ c : GConfig, (emitG genv GEvent.wc_qr_modal_close c).promise = c.promise) := by
  refine ⟨?_, ?_, ?_, ?_, ?_, ?_, ?_, ?_, ?_, ?_, ?_, ?_, ?_, ?_⟩
  · intro c e h
    exact emitK_settled_frozen kenv e c h
  · intro c e h
    exact emitG_settled_frozen genv e c h
  · intro s p s' h
    unfold getKeplr at h
    (repeat' split at h) <;> first | (cases h; rfl) | cases h
  · intro g p g' h
    unfold getWallet at h
    (repeat' split at h) <;> first | (cases h; rfl) | cases h
  · intro c h
    simp [emitK, h, isSettled_doReject]
  · intro c h
    simp [emitK, h, isSettled_doResolve]
  · intro c h hconn
    simp [emitK, h, hconn, isSettled_doResolve]
  · intro c err h hconn
    cases err <;>
      simp [emitK, h, hconn, isSettled_doReject, isSettled_doResolve, KConfig.cleanUp]
  · intro c h
    simp [emitG, h, isSettled_doReject]
  · intro c wid info hmem hfind hsw
    simp [emitG, hmem, hfind, hsw, isSettled_doResolve, resolveWalletG, GConfig.cleanUp]
  · intro c wid info hmem hfind hconn
    by_cases hsw : strStartsWith info.id "walletconnect" = true <;>
      simp [emitG, hmem, hfind, hsw, hconn, isSettled_doResolve, resolveWalletG,
        GConfig.cleanUp]
  · intro c wid info err hmem hfind hsw hconn
    cases err <;>
      simp [emitG, hmem, hfind, hsw, hconn, isSettled_doReject, isSettled_doResolve,
        resolveWalletG, GConfig.cleanUp]
  · intro c
    simp only [emitK]
    split <;> rfl
  · intro c
    simp only [emitG]
    split <;> rfl

/-- Witness for claim C1 (amended): concrete settling paths of both
brokers — selection dismissal, pairing failure after selecting
"wallet-connect", and prompted selection of "extension". -/
theorem c1_exactly_once_amended_witness :
    kCfg0.subs.modal_close = true ∧
    ((emitK kEnv0 KEvent.modal_close kCfg0).promise).isSettled = true ∧
    ((emitK kEnv0 (KEvent.connectFires (some "fail"))
        (emitK kEnv0 KEvent.select_wallet_connect kCfg0)).promise).isSettled = true ∧
    ((emitG gEnv0 GEvent.modal_close gCfg0).promise).isSettled = true ∧
    ((emitG gEnv0 (GEvent.selectWallet "extension") gCfg0).promise).isSettled = true := by
  have h := c1_exactly_once_amended kEnv0 gEnv0
  obtain ⟨h1, h2, h3, h4, h5, h6, h7, h8, h9, h10, h11, h12, h13, h14⟩ := h
  refine ⟨by decide, ?_, ?_, ?_, ?_⟩
  · exact h5 kCfg0 (by decide)
  · exact h8 kCfg0 (some "fail") (by decide) (by decide)
  · exact h9 gCfg0 (by decide)
  · exact h10 gCfg0 "extension" { id := "extension", wallet := some 7 }
      (by decide) (by decide) (by decide)
